import Mathlib

/-!
Shallow embedding of the salkaro/api telemetry ingestion service (Go).

The embedding translates the request-handling pipeline of `api/upload.go`
(`handleUpload` and its helpers), the root/health handlers, and the HTTP
routing of the two `main` entry points.  Go strings are modelled as Lean
`String`, with Go byte slicing rendered as character-list slicing on
`String.data` (the credentials and routes involved are ASCII, where the two
coincide).  External effects (identity-store lookups, the rate limiter
verdict, the count query, marshalling and the storage write) are supplied by
an `Env` record of oracles, and each external call the handler issues is
recorded in an event trace so that claims about which calls are made can be
stated and proved.
-/

/-- Value carried by the `value` field of a decoded JSON body.  Go's
`encoding/json` decodes into `any`: JSON numbers become `float64` (modelled
as `Rat`), strings `string`, booleans `bool`, null / absent field `nil`,
objects `map[string]any` and arrays `[]any` (modelled by the payload-free
`object` / `array` tags, since only their type is ever inspected). -/
inductive GoValue where
  | nullV
  | num (x : Rat)
  | str (s : String)
  | bool (b : Bool)
  | object
  | array
deriving DecidableEq, Repr

/-- Decoded upload body, mirroring `SensorReading` in `api/upload.go`:
pointer fields (`*string`, `*int64`) become `Option`. -/
structure SensorReading where
  sensorId : Option String
  timestamp : Option Int
  value : GoValue
  status : Option String
deriving DecidableEq, Repr

/-- An HTTP response: status code and body text (the trailing newline that
Go's `http.Error` appends is omitted uniformly). -/
structure HttpResp where
  status : Nat
  body : String
deriving DecidableEq, Repr

/-- Outcome of running the handler: a response, or a Go runtime panic
(the out-of-bounds string slice at the retention-code extraction). -/
inductive Outcome where
  | resp (r : HttpResp)
  | panics
deriving DecidableEq, Repr

/-- A point as constructed for the storage write in Step 9 of
`handleUpload`: measurement `"sensor_reading"`, tags `org`/`sensor`,
fields `value` and optional `status`, and the normalized timestamp in
nanoseconds since the Unix epoch. -/
structure Point where
  measurement : String
  orgTag : String
  sensorTag : String
  value : GoValue
  status : Option String
  tsNanos : Int
deriving DecidableEq, Repr

/-- External calls the handler can issue, with their arguments. -/
inductive Event where
  | keyLookup (orgID apiKey : String)
  | sensorLookup (orgID sensorID : String)
  | rateAcquire (key : String)
  | countQuery (bucket sql : String)
  | storeWrite (bucket : String) (p : Point)
deriving DecidableEq, Repr

/-- Kind of an external call, forgetting the arguments. -/
inductive EKind where
  | key
  | sensor
  | rate
  | query
  | write
deriving DecidableEq, Repr

/-- Kind of an event. -/
def eventKind : Event → EKind
  | Event.keyLookup _ _ => EKind.key
  | Event.sensorLookup _ _ => EKind.sensor
  | Event.rateAcquire _ => EKind.rate
  | Event.countQuery _ _ => EKind.query
  | Event.storeWrite _ _ => EKind.write

/-- Result of the quota count read in `validateCountLimit`: `qErr` models
`influxClient.Query` returning an error, `itErr` models `iterator.Err()`
being non-nil after the row loop, and `ok n` models the loop completing
with `currentCount = n` (the last row whose `count` column is an `int64`;
`0` when no such row arrives). -/
inductive CountRes where
  | qErr
  | itErr
  | ok (n : Int)
deriving DecidableEq, Repr

/-- Oracles for the external collaborators of one request: Firestore
document existence for API keys and sensors, the rate-limiter verdict
(`limiter.Allow()`), the count-query result, and success of
`point.MarshalBinary` and `influxClient.Write`. -/
structure Env where
  keyDocExists : String → String → Bool
  sensorDocExists : String → String → Bool
  rateAllow : Bool
  countRes : CountRes
  marshalOk : Bool
  writeOk : Bool

/-- An inbound HTTP request to `/v1/upload`.  `authHeader` is
`r.Header.Get("Authorization")` (empty string when the header is absent);
`orgID`/`sensorID` are the query parameters (empty when missing); `body`
is the result of JSON-decoding the request body (`Except.error e` models a
decoder error with message `e`). -/
structure Request where
  method : String
  authHeader : String
  orgID : String
  sensorID : String
  body : Except String SensorReading

/-- A single-quote character (used to build the interpolated SQL text). -/
def squo : String := String.mk [Char.ofNat 39]

/-- The `Authorization` scheme tag checked by `strings.HasPrefix`. -/
def bearerTag : String := "Bearer "

/-- Retention-code-to-bucket table `retentionBuckets` from `api/upload.go`;
Go map indexing yields the zero value `""` for an absent key. -/
def retentionBuckets (c : String) : String :=
  if c = "0007" then "retention_7d"
  else if c = "0030" then "retention_30d"
  else if c = "0090" then "retention_90d"
  else if c = "0180" then "retention_180d"
  else if c = "0365" then "retention_365d"
  else ""

/-- Quota table `quotaMap` from `validateCountLimit`, with the explicit
`ok` test rendered as `Option`. -/
def quotaMap (c : String) : Option Int :=
  if c = "0007" then some 10000
  else if c = "0030" then some 100000
  else if c = "0090" then some 1000000
  else if c = "0180" then some 10000000
  else if c = "0365" then some 1000000000
  else none

/-- The interpolated count query built by `fmt.Sprintf` in
`validateCountLimit`, whitespace included, with the organization
identifier spliced in verbatim. -/
def countSql (orgID : String) : String :=
  "\n\t\tSELECT COUNT(*) AS count FROM sensor_reading WHERE \"org\" = "
    ++ squo ++ orgID ++ squo ++ "\n\t"

/-- Permission check `isUploadAllowed` from `api/upload.go`: too-short keys
are denied, otherwise the final two characters must be an allowed access
level. -/
def isUploadAllowed (apiKey : String) : Bool :=
  if apiKey.length < 2 then false
  else
    let accessLevel := String.mk (apiKey.data.drop (apiKey.length - 2))
    accessLevel = "02" || accessLevel = "03" || accessLevel = "04"

/-- Traced `validateAPIKey`: the Firestore lookup under
`tokens/{orgID}/apiKeys/{apiKey}` is issued only when the local permission
check passes, and its success is the oracle's answer. -/
def validateAPIKeyT (env : Env) (orgID apiKey : String) : Bool × List Event :=
  if ¬ isUploadAllowed apiKey then (false, [])
  else (env.keyDocExists orgID apiKey, [Event.keyLookup orgID apiKey])

/-- Traced `validateSensorID`: one Firestore lookup under
`devices/{orgID}/sensors/{sensorId}`. -/
def validateSensorIDT (env : Env) (orgID sensorID : String) : Bool × List Event :=
  (env.sensorDocExists orgID sensorID, [Event.sensorLookup orgID sensorID])

/-- Reading validation `validateReading`: `nil` value rejected first, then
only `float64`, `string` and `bool` pass the type switch.  Returns the Go
error message, `none` for success. -/
def validateReading (r : SensorReading) : Option String :=
  match r.value with
  | GoValue.nullV => some "value cannot be null"
  | GoValue.num _ => none
  | GoValue.str _ => none
  | GoValue.bool _ => none
  | GoValue.object => some "value must be number, string, or boolean"
  | GoValue.array => some "value must be number, string, or boolean"

/-- Timestamp normalization from Step 6 of `handleUpload`, expressed as
nanoseconds since the Unix epoch: `time.Unix(raw, 0)` for
`raw < 1_000_000_000_000`, `time.UnixMilli(raw)` otherwise (both `.UTC()`,
which does not move the instant). -/
def normTsNanos (raw : Int) : Int :=
  if raw < 1000000000000 then raw * 1000000000 else raw * 1000000

/-- Default-fill of the body's `sensorId` from Step 6: a `nil` or empty
body field is replaced by the route's `sensor_id`. -/
def effectiveReading (reading : SensorReading) (routeSensor : String) : SensorReading :=
  if reading.sensorId = none ∨ reading.sensorId = some "" then
    { reading with sensorId := some routeSensor }
  else reading

/-- Retention-code extraction `apiKey[len(apiKey)-6 : len(apiKey)-2]` from
Step 7.  Go slices bytes and panics when `len(apiKey) < 6` (the lower bound
becomes negative); the panic is modelled as `none`. -/
def retentionSlice (apiKey : String) : Option String :=
  if apiKey.length < 6 then none
  else some (String.mk ((apiKey.data.drop (apiKey.length - 6)).take 4))

/-- Retention code of a credential, ignoring the bounds check (the value
`retentionSlice` yields when it is defined). -/
def retCodeOf (apiKey : String) : String :=
  String.mk ((apiKey.data.drop (apiKey.length - 6)).take 4)

/-- Credential extracted from a request's `Authorization` header by
`strings.TrimPrefix(auth, "Bearer ")`. -/
def credOf (req : Request) : String :=
  String.mk (req.authHeader.data.drop 7)

/-- Point construction from Step 9: fixed measurement, `org`/`sensor` tags,
the reading's value and optional status, and the normalized timestamp.
After the Step-6 default fill `reading.sensorId` is always `some`, so the
`getD` default is never used. -/
def mkPoint (orgID : String) (reading : SensorReading) (tsN : Int) : Point :=
  { measurement := "sensor_reading"
    orgTag := orgID
    sensorTag := reading.sensorId.getD ""
    value := reading.value
    status := reading.status
    tsNanos := tsN }

/-- Verdict of `validateCountLimit`: tier lookup, error handling of the
count read, and the ceiling comparison `currentCount >= maxPoints`.
`some r` is a rejection with response `r` (the Go function writes `r` and
returns `false`); `none` admits the request. -/
def countVerdict (env : Env) (retentionCode : String) : Option HttpResp :=
  match quotaMap retentionCode with
  | none => some ⟨400, "Unknown retention tier"⟩
  | some maxPoints =>
    match env.countRes with
    | CountRes.qErr => some ⟨500, "Internal Server Error"⟩
    | CountRes.itErr => some ⟨500, "Internal Server Error"⟩
    | CountRes.ok n =>
        if maxPoints ≤ n then some ⟨402, "Quota exceeded"⟩ else none

/-- External calls issued by `validateCountLimit`: the count query is sent
exactly when the tier lookup succeeded (the function returns before
querying on an unknown tier). -/
def countEvents (orgID retentionCode bucket : String) : List Event :=
  match quotaMap retentionCode with
  | none => []
  | some _ => [Event.countQuery bucket (countSql orgID)]

/-- Traced `validateCountLimit`: verdict together with the calls issued. -/
def validateCountLimitT (env : Env) (orgID retentionCode bucket : String) :
    Option HttpResp × List Event :=
  (countVerdict env retentionCode, countEvents orgID retentionCode bucket)

/-- Success body written in Step 12. -/
def acceptedBody : String := "\x7b\"status\":\"accepted\"\x7d"

/-- The upload pipeline `handleUpload` from `api/upload.go`: the ordered
gates of Steps 1-12, returning the outcome together with the trace of
external calls issued.  The `||` in Step 4 short-circuits, so the sensor
lookup only runs when the API-key validation succeeded. -/
def handleUpload (env : Env) (req : Request) : Outcome × List Event :=
  if req.method ≠ "POST" then
    (Outcome.resp ⟨405, "Method Not Allowed"⟩, [])
  else if ¬ (req.authHeader.data.take 7 = bearerTag.data) then
    (Outcome.resp ⟨401, "Unauthorized"⟩, [])
  else if req.orgID = "" ∨ req.sensorID = "" then
    (Outcome.resp ⟨400, "Missing org_id or sensor_id query parameter"⟩, [])
  else if ¬ (validateAPIKeyT env req.orgID (credOf req)).1 then
    (Outcome.resp ⟨401, "Unauthorized"⟩, (validateAPIKeyT env req.orgID (credOf req)).2)
  else if ¬ (validateSensorIDT env req.orgID req.sensorID).1 then
    (Outcome.resp ⟨401, "Unauthorized"⟩,
      (validateAPIKeyT env req.orgID (credOf req)).2
        ++ (validateSensorIDT env req.orgID req.sensorID).2)
  else
    let ev5 := (validateAPIKeyT env req.orgID (credOf req)).2
      ++ (validateSensorIDT env req.orgID req.sensorID).2
      ++ [Event.rateAcquire (credOf req ++ ":" ++ req.sensorID)]
    if ¬ env.rateAllow then
      (Outcome.resp ⟨429, "Rate limit exceeded"⟩, ev5)
    else
      match req.body with
      | Except.error e => (Outcome.resp ⟨400, "Bad Request: " ++ e⟩, ev5)
      | Except.ok reading0 =>
        let reading := effectiveReading reading0 req.sensorID
        match reading.timestamp with
        | none => (Outcome.resp ⟨400, "Missing timestamp"⟩, ev5)
        | some raw =>
          let tsN := normTsNanos raw
          match validateReading reading with
          | some msg => (Outcome.resp ⟨400, "Bad Reading: " ++ msg⟩, ev5)
          | none =>
            match retentionSlice (credOf req) with
            | none => (Outcome.panics, ev5)
            | some code =>
              let bucket := retentionBuckets code
              if bucket = "" then
                (Outcome.resp ⟨400, "Unknown retention level"⟩, ev5)
              else
                let evq := (validateCountLimitT env req.orgID code bucket).2
                match (validateCountLimitT env req.orgID code bucket).1 with
                | some r => (Outcome.resp r, ev5 ++ evq)
                | none =>
                  let point := mkPoint req.orgID reading tsN
                  if ¬ env.marshalOk then
                    (Outcome.resp ⟨500, "Failed to process data"⟩, ev5 ++ evq)
                  else if ¬ env.writeOk then
                    (Outcome.resp ⟨500, "Failed to write data"⟩,
                      ev5 ++ evq ++ [Event.storeWrite bucket point])
                  else
                    (Outcome.resp ⟨202, acceptedBody⟩,
                      ev5 ++ evq ++ [Event.storeWrite bucket point])

/-- Token-bucket limiter state, as `golang.org/x/time/rate.Limiter` behaves
for monotone call times: `tokens` available at instant `lastT` (seconds,
exact rationals). -/
structure Limiter where
  tokens : Rat
  lastT : Rat
deriving DecidableEq, Repr

/-- A freshly constructed `rate.NewLimiter(2, 2)` observed at time `t`:
refill rate 2 tokens/second, burst 2, bucket initially full. -/
def newLimiter (t : Rat) : Limiter := ⟨2, t⟩

/-- One `limiter.Allow()` call at time `t`: advance the token count by the
elapsed time at 2 tokens/second, cap at the burst 2, and consume one token
when at least one is available. -/
def limiterAllowAt (l : Limiter) (t : Rat) : Bool × Limiter :=
  let tok := min 2 (l.tokens + (t - l.lastT) * 2)
  if 1 ≤ tok then (true, ⟨tok - 1, t⟩) else (false, ⟨tok, t⟩)

/-- Composite registry key built by `getRateLimiter`. -/
def rateKey (apiKey sensorID : String) : String := apiKey ++ ":" ++ sensorID

/-- Registry lookup-or-create `getRateLimiter` (the mutex-guarded map):
an existing bucket for the key is returned unchanged, otherwise a fresh
`rate.NewLimiter(2, 2)` is created at the current time and stored. -/
def getRateLimiter (m : List (String × Limiter)) (apiKey sensorID : String) (t : Rat) :
    Limiter × List (String × Limiter) :=
  match m.lookup (rateKey apiKey sensorID) with
  | some l => (l, m)
  | none => (newLimiter t, (rateKey apiKey sensorID, newLimiter t) :: m)

/-- Three consecutive `Allow()` calls on one limiter at a single instant,
returning the three verdicts and the final state. -/
def allowThrice (l : Limiter) (t : Rat) : Bool × Bool × Bool × Limiter :=
  let r1 := limiterAllowAt l t
  let r2 := limiterAllowAt r1.2 t
  let r3 := limiterAllowAt r2.2 t
  (r1.1, r2.1, r3.1, r3.2)

/-- Response written by `RootHandler` in `api/root.go`. -/
def rootHandlerResp : HttpResp :=
  ⟨200, "\x7b\"name\": \"Salkaro API\", \"version\": \"1.0.1\", \"status\": \"active\"\x7d"⟩

/-- Response written by the `/health` handler registered in the
`src/unnamed/part_000` entry point. -/
def healthResp : HttpResp := ⟨200, "\x7b\"status\":\"healthy\"\x7d"⟩

/-- Handlers registered on the HTTP mux. -/
inductive HandlerTag where
  | root
  | health
  | upload
deriving DecidableEq, Repr

/-- Go `net/http` `ServeMux` pattern matching (`pathMatch`): an empty
pattern never matches; a pattern not ending in a slash matches only the
identical path; a pattern ending in a slash matches every path it
prefixes. -/
def patMatches (pat path : String) : Bool :=
  if pat = "" then false
  else if pat.data.getLast? = some (Char.ofNat 47) then
    decide (path.data.take pat.data.length = pat.data)
  else decide (pat = path)

/-- ServeMux handler selection: the matching registered pattern of maximal
length (distinct registered patterns cannot tie on one path). -/
def muxBest (pats : List (String × HandlerTag)) (path : String) :
    Option (String × HandlerTag) :=
  pats.foldl
    (fun best p =>
      if patMatches p.1 path then
        match best with
        | none => some p
        | some b => if b.1.length < p.1.length then some p else best
      else best)
    none

/-- Which handler a mux routes a path to. -/
def routeOf (pats : List (String × HandlerTag)) (path : String) : Option HandlerTag :=
  (muxBest pats path).map (fun p => p.2)

/-- Patterns registered by `src/main.go`: the root handler on slash and the
upload handler (no `/health` registration). -/
def mainGoPats : List (String × HandlerTag) :=
  [("/", HandlerTag.root), ("/v1/upload", HandlerTag.upload)]

/-- Patterns registered by the `src/unnamed/part_000` entry point: a
dedicated `/health` handler and the upload handler (no root registration). -/
def part000Pats : List (String × HandlerTag) :=
  [("/health", HandlerTag.health), ("/v1/upload", HandlerTag.upload)]

/-- Response of a routed handler to a GET request.  `RootHandler` and the
health handler ignore the method; `handleUpload` answers a GET with
405 `Method Not Allowed` (its Step 1). -/
def tagRespGet : HandlerTag → HttpResp
  | HandlerTag.root => rootHandlerResp
  | HandlerTag.health => healthResp
  | HandlerTag.upload => ⟨405, "Method Not Allowed"⟩

/-- Failure classes of the spec's error taxonomy (section 7), together with
success. -/
inductive FailureClass where
  | methodErr
  | authErr
  | inputErr
  | rateErr
  | quotaErr
  | internalErr
  | success
deriving DecidableEq, Repr

/-- HTTP status fixed by the spec for each taxonomy class (section 6). -/
def classStatus : FailureClass → Nat
  | FailureClass.methodErr => 405
  | FailureClass.authErr => 401
  | FailureClass.inputErr => 400
  | FailureClass.rateErr => 429
  | FailureClass.quotaErr => 402
  | FailureClass.internalErr => 500
  | FailureClass.success => 202

/-- Status of an outcome; `none` for a panic, which produces no HTTP
response. -/
def statusView : Outcome → Option Nat
  | Outcome.resp r => some r.status
  | Outcome.panics => none

/-- Modelled from the spec: classification of a request into the error
taxonomy, following the gate order of section 4.6 with the class each gate's
failure maps to in section 6 (`none` for the out-of-bounds retention-code
slice, which yields no response at all).  Wrong method is a method error;
a missing Bearer header, a failed credential check or a failed device
existence check are auth errors; missing parameters, an undecodable body, a
missing timestamp, an invalid value type and an unrecognized retention code
(in either table) are client input errors; a rate-gate denial is a rate
error; a met-or-exceeded ceiling is a quota error; a failed count read,
marshal failure and write failure are internal errors. -/
def classifyReq (env : Env) (req : Request) : Option FailureClass :=
  if req.method ≠ "POST" then some FailureClass.methodErr
  else if ¬ (req.authHeader.data.take 7 = bearerTag.data) then some FailureClass.authErr
  else if req.orgID = "" ∨ req.sensorID = "" then some FailureClass.inputErr
  else if ¬ (validateAPIKeyT env req.orgID (credOf req)).1 then some FailureClass.authErr
  else if ¬ (validateSensorIDT env req.orgID req.sensorID).1 then some FailureClass.authErr
  else if ¬ env.rateAllow then some FailureClass.rateErr
  else
    match req.body with
    | Except.error _ => some FailureClass.inputErr
    | Except.ok reading0 =>
      match (effectiveReading reading0 req.sensorID).timestamp with
      | none => some FailureClass.inputErr
      | some _ =>
        match validateReading (effectiveReading reading0 req.sensorID) with
        | some _ => some FailureClass.inputErr
        | none =>
          match retentionSlice (credOf req) with
          | none => none
          | some code =>
            if retentionBuckets code = "" then some FailureClass.inputErr
            else
              match quotaMap code with
              | none => some FailureClass.inputErr
              | some ceiling =>
                match env.countRes with
                | CountRes.qErr => some FailureClass.internalErr
                | CountRes.itErr => some FailureClass.internalErr
                | CountRes.ok n =>
                  if ceiling ≤ n then some FailureClass.quotaErr
                  else if ¬ env.marshalOk then some FailureClass.internalErr
                  else if ¬ env.writeOk then some FailureClass.internalErr
                  else some FailureClass.success

/-- Modelled from the spec: the sensor tag an admitted point must carry —
the body's `sensorId` when present and non-empty, the route's `sensor_id`
otherwise. -/
def bodySensorSpec (reading : SensorReading) (routeSensor : String) : String :=
  match reading.sensorId with
  | none => routeSensor
  | some s => if s = "" then routeSensor else s

/-- Number of single-quote characters in a string (the delimiters of the
SQL string literal in the count query). -/
def sqlQuoteCount (s : String) : Nat :=
  s.data.count (Char.ofNat 39)

/-- Event-kind traces allowed by the spec's gate order: each is a prefix of
the canonical external-call sequence key-lookup, sensor-lookup,
rate-acquire, count-query, store-write. -/
def gateTracePrefixes : List (List EKind) :=
  [[],
   [EKind.key],
   [EKind.key, EKind.sensor],
   [EKind.key, EKind.sensor, EKind.rate],
   [EKind.key, EKind.sensor, EKind.rate, EKind.query],
   [EKind.key, EKind.sensor, EKind.rate, EKind.query, EKind.write]]

/-- An environment in which every external collaborator succeeds: both
identity-store documents exist, the rate gate admits, the count query
returns zero, and marshal and write succeed. -/
def envAll : Env :=
  { keyDocExists := fun _ _ => true
    sensorDocExists := fun _ _ => true
    rateAllow := true
    countRes := CountRes.ok 0
    marshalOk := true
    writeOk := true }

/-- Points carried by the store-write events of a trace. -/
def writePointsOf (t : List Event) : List Point :=
  t.filterMap fun e =>
    match e with
    | Event.storeWrite _ p => some p
    | _ => none

/-- Sensor identifiers carried by the sensor-existence lookups of a
trace. -/
def sensorLookupArgsOf (t : List Event) : List String :=
  t.filterMap fun e =>
    match e with
    | Event.sensorLookup _ s => some s
    | _ => none

/-- A count-query environment returning the count `n`. -/
def envCountAt (n : Int) : Env := { envAll with countRes := CountRes.ok n }

/-- An environment whose count query fails at the `Query` call. -/
def envQErr : Env := { envAll with countRes := CountRes.qErr }

/-- A well-formed reading: seconds-scale timestamp, numeric value. -/
def reading202 : SensorReading :=
  { sensorId := none, timestamp := some 1700000000, value := GoValue.num (43/2), status := none }

/-- A fully valid upload request: credential `abc000702` (retention code
`0007`, access level `02`). -/
def req202 : Request :=
  { method := "POST", authHeader := "Bearer abc000702", orgID := "org1", sensorID := "dev1",
    body := Except.ok reading202 }

/-- A minimal valid reading. -/
def readingOne : SensorReading :=
  { sensorId := none, timestamp := some 1, value := GoValue.num 1, status := none }

/-- A request whose credential is the two-character string `02`: its suffix
is an allowed access level, yet it is shorter than the six characters the
retention-code slice needs. -/
def reqShortCred : Request :=
  { method := "POST", authHeader := "Bearer 02", orgID := "o", sensorID := "s",
    body := Except.ok readingOne }

/-- A second short-credential request (credential `03`). -/
def reqShortCred3 : Request :=
  { method := "POST", authHeader := "Bearer 03", orgID := "o2", sensorID := "s2",
    body := Except.ok readingOne }

/-- A request whose credential `999902` carries the unknown retention code
`9999` with the allowed access level `02`. -/
def req9999 : Request :=
  { method := "POST", authHeader := "Bearer 999902", orgID := "org1", sensorID := "dev1",
    body := Except.ok reading202 }

/-- A reading whose body names a sensor (`other`) different from the
route's `sensor_id`. -/
def readingOther : SensorReading :=
  { sensorId := some "other", timestamp := some 1700000000, value := GoValue.bool true,
    status := some "ok" }

/-- A valid request whose body carries its own sensor identifier. -/
def reqOther : Request :=
  { method := "POST", authHeader := "Bearer abc000702", orgID := "org1", sensorID := "dev1",
    body := Except.ok readingOther }

set_option maxHeartbeats 1000000

/-- Every branch of the pipeline produces the HTTP status the spec's
taxonomy fixes for its class (and no response at all exactly when the
classification is the out-of-bounds slice). -/
theorem statusRefine (env : Env) (req : Request) :
    statusView (handleUpload env req).1 = (classifyReq env req).map classStatus := by
  unfold handleUpload classifyReq
  repeat' split
  all_goals simp_all [statusView, validateCountLimitT, countVerdict, classStatus]
  all_goals rw [if_neg (by omega)]

/-- A request classified as success is answered 202 with the accepted
body. -/
theorem successBody (env : Env) (req : Request)
    (h : classifyReq env req = some FailureClass.success) :
    (handleUpload env req).1 = Outcome.resp ⟨202, acceptedBody⟩ := by
  revert h
  unfold handleUpload classifyReq
  repeat' split
  all_goals simp_all [validateCountLimitT, countVerdict]
  all_goals rw [if_neg (by omega)]

/-- Distinct taxonomy classes carry distinct status codes. -/
theorem classStatusInj (a b : FailureClass) (h : classStatus a = classStatus b) : a = b := by
  cases a <;> cases b <;> simp_all [classStatus]

/-- The external calls of any run, projected to their kinds, form a prefix
of the canonical gate sequence: no call is reordered and no later call is
issued once an earlier gate failed. -/
theorem gateTraceMem (env : Env) (req : Request) :
    (handleUpload env req).2.map eventKind ∈ gateTracePrefixes := by
  unfold handleUpload
  repeat' split
  all_goals simp_all [gateTracePrefixes, eventKind, validateCountLimitT, countEvents,
    validateAPIKeyT, validateSensorIDT]
  all_goals (repeat' split) <;> simp_all [eventKind, countVerdict]

/-- A request that passes every gate up to retention classification but
whose credential's retention code is not in the bucket table is answered
400 and issues no count query and no write. -/
theorem unknownRetention400 (env : Env) (req : Request) (reading : SensorReading)
    (raw : Int) (code : String)
    (hm : req.method = "POST")
    (ha : req.authHeader.data.take 7 = bearerTag.data)
    (ho : ¬ req.orgID = "") (hs : ¬ req.sensorID = "")
    (hkey : (validateAPIKeyT env req.orgID (credOf req)).1 = true)
    (hsen : (validateSensorIDT env req.orgID req.sensorID).1 = true)
    (hrate : env.rateAllow = true)
    (hb : req.body = Except.ok reading)
    (hts : (effectiveReading reading req.sensorID).timestamp = some raw)
    (hval : validateReading (effectiveReading reading req.sensorID) = none)
    (hslice : retentionSlice (credOf req) = some code)
    (hbucket : retentionBuckets code = "") :
    (handleUpload env req).1 = Outcome.resp ⟨400, "Unknown retention level"⟩ ∧
    (handleUpload env req).2.map eventKind = [EKind.key, EKind.sensor, EKind.rate] ∧
    EKind.query ∉ (handleUpload env req).2.map eventKind ∧
    EKind.write ∉ (handleUpload env req).2.map eventKind := by
  have hall : isUploadAllowed (credOf req) = true := by
    by_contra hno
    simp [validateAPIKeyT, hno] at hkey
  unfold handleUpload
  simp_all [validateAPIKeyT, validateSensorIDT, eventKind]

/-- Boolean form of the written-sensor-tag and lookup-argument facts, over
all branches of the pipeline. -/
theorem sensorTagAll (env : Env) (req : Request) (reading : SensorReading)
    (hb : req.body = Except.ok reading) :
    (writePointsOf (handleUpload env req).2).all
      (fun p => p.sensorTag = bodySensorSpec reading req.sensorID) = true ∧
    (sensorLookupArgsOf (handleUpload env req).2).all
      (fun s => s = req.sensorID) = true := by
  unfold handleUpload
  repeat' split
  all_goals simp_all [writePointsOf, sensorLookupArgsOf, validateCountLimitT, countEvents,
    validateAPIKeyT, validateSensorIDT, mkPoint, effectiveReading, bodySensorSpec]
  all_goals (repeat' split) <;> simp_all [countVerdict]
  all_goals (cases hsid : reading.sensorId <;> simp_all)

/-- C1 counterexample: the magnitude reading of the threshold fails at
`t = -10^12`, whose magnitude is at least `10^12` yet which the code (using
a signed comparison) normalizes as seconds, not milliseconds. -/
theorem c1_threshold_counterexample :
    ¬ (∀ t : Int, (|t| < 1000000000000 → normTsNanos t = t * 1000000000) ∧
        (1000000000000 ≤ |t| → normTsNanos t = t * 1000000)) := by
  intro h
  have h2 := (h (-1000000000000)).2 (by norm_num)
  norm_num [normTsNanos] at h2

/-- C1 (amended): normalization compares the raw timestamp to `10^12`
signed, not by magnitude: every `t < 10^12` is interpreted as whole Unix
seconds and every `t ≥ 10^12` as whole Unix milliseconds, as UTC
instants. -/
theorem c1_timestamp_threshold (t : Int) :
    (t < 1000000000000 → normTsNanos t = t * 1000000000) ∧
    (1000000000000 ≤ t → normTsNanos t = t * 1000000) := by
  constructor
  · intro h
    unfold normTsNanos
    rw [if_pos h]
  · intro h
    unfold normTsNanos
    rw [if_neg (not_lt.mpr h)]

/-- C1 witness: a seconds-scale and a milliseconds-scale timestamp each
normalized at a concrete input. -/
theorem c1_timestamp_threshold_witness :
    normTsNanos 1700000000 = 1700000000 * 1000000000 ∧
    normTsNanos 1700000000123 = 1700000000123 * 1000000 :=
  ⟨(c1_timestamp_threshold 1700000000).1 (by norm_num),
   (c1_timestamp_threshold 1700000000123).2 (by norm_num)⟩

/-- C2 counterexample: the credential `02` is shorter than six characters,
yet access control issues an identity-store lookup for it and (in an
environment where the document exists) grants it. -/
theorem c2_short_counterexample :
    ¬ (∀ (env : Env) (orgID apiKey : String), apiKey.length < 6 →
        (validateAPIKeyT env orgID apiKey).1 = false ∧
        (validateAPIKeyT env orgID apiKey).2 = []) := by
  intro h
  exact absurd (h envAll "org1" "02" (by decide)).1 (by decide)

/-- C2 (amended): only credentials shorter than two characters are denied
without an identity-store lookup; a credential of length two to five whose
two-character suffix is an allowed access level does trigger a lookup and
can pass access control. -/
theorem c2_short_credentials :
    (∀ (env : Env) (orgID apiKey : String), apiKey.length < 2 →
        validateAPIKeyT env orgID apiKey = (false, [])) ∧
    (∃ (env : Env) (orgID apiKey : String), 2 ≤ apiKey.length ∧ apiKey.length ≤ 5 ∧
        validateAPIKeyT env orgID apiKey = (true, [Event.keyLookup orgID apiKey])) := by
  constructor
  · intro env orgID apiKey h
    simp [validateAPIKeyT, isUploadAllowed, h]
  · exact ⟨envAll, "org1", "02", by decide, by decide, by decide⟩

/-- C2 witness: the one-character credential `x` is denied with no
lookup. -/
theorem c2_short_credentials_witness :
    validateAPIKeyT envAll "org1" "x" = (false, []) :=
  c2_short_credentials.1 envAll "org1" "x" (by decide)

/-- C3: the two-character credential `02` has an allowed access-level
suffix and passes both identity-store existence checks, yet the handler
reaches the retention-code slice `apiKey[len-6 : len-2]` with it and
panics; the slice is total exactly on credentials of length at least
six. -/
theorem c3_retention_slice_panics :
    credOf reqShortCred = "02" ∧
    2 ≤ (credOf reqShortCred).length ∧ (credOf reqShortCred).length ≤ 5 ∧
    isUploadAllowed (credOf reqShortCred) = true ∧
    (validateAPIKeyT envAll reqShortCred.orgID (credOf reqShortCred)).1 = true ∧
    (validateSensorIDT envAll reqShortCred.orgID reqShortCred.sensorID).1 = true ∧
    (handleUpload envAll reqShortCred).1 = Outcome.panics ∧
    (∀ k : String, (retentionSlice k).isSome = decide (6 ≤ k.length)) := by
  refine ⟨by decide, by decide, by decide, by decide, by decide, by decide, by decide, ?_⟩
  intro k
  unfold retentionSlice
  split
  · next h => simp [show ¬ 6 ≤ k.length by omega]
  · next h => simp [show 6 ≤ k.length by omega]

/-- C4 counterexample: a POST request (valid credential suffix `03`, both
identity documents present, valid body) produces no HTTP status at all —
the handler panics at the retention-code slice — so the outcome is not
always one of the mapped status codes. -/
theorem c4_status_counterexample :
    ¬ (∀ (env : Env) (req : Request), req.method = "POST" →
        ∃ r : HttpResp, (handleUpload env req).1 = Outcome.resp r) := by
  intro h
  obtain ⟨r, hr⟩ := h envAll reqShortCred3 (by decide)
  have hp : (handleUpload envAll reqShortCred3).1 = Outcome.panics := by decide
  rw [hp] at hr
  exact Outcome.noConfusion hr

/-- C4 (amended): whenever the handler returns a response (it panics
exactly when a passing credential shorter than six characters reaches the
retention slice), the status is the one the taxonomy fixes for the
request's failure class — 405 wrong method, 401 auth, 400 client input,
429 rate limit, 402 quota, 500 internal, and 202 with the accepted body on
success — and distinct classes never share a status code. -/
theorem c4_status_mapping :
    (∀ (env : Env) (req : Request),
        statusView (handleUpload env req).1 = (classifyReq env req).map classStatus) ∧
    (∀ (env : Env) (req : Request), classifyReq env req = some FailureClass.success →
        (handleUpload env req).1 = Outcome.resp ⟨202, acceptedBody⟩) ∧
    (∀ a b : FailureClass, classStatus a = classStatus b → a = b) :=
  ⟨statusRefine, successBody, classStatusInj⟩

/-- C4 witness: the fully valid request is answered 202 with the accepted
body, by the mapping theorem at a concrete input. -/
theorem c4_status_mapping_witness :
    statusView (handleUpload envAll req202).1 = some 202 ∧
    (handleUpload envAll req202).1 = Outcome.resp ⟨202, acceptedBody⟩ := by
  constructor
  · rw [c4_status_mapping.1 envAll req202]
    decide
  · exact c4_status_mapping.2.1 envAll req202 (by decide)

/-- C5: with a known tier, a successful count read rejects with the
distinct 402 quota outcome exactly when the count reaches the ceiling,
and a failed count read (query error or iterator error) rejects with 500,
never admitting and never reporting quota-exceeded. -/
theorem c5_quota_guard (env : Env) (orgID code bucket : String) (ceiling : Int)
    (hc : quotaMap code = some ceiling) :
    (∀ n : Int, env.countRes = CountRes.ok n →
        (validateCountLimitT env orgID code bucket).1 =
          (if ceiling ≤ n then some ⟨402, "Quota exceeded"⟩ else none)) ∧
    ((env.countRes = CountRes.qErr ∨ env.countRes = CountRes.itErr) →
        (validateCountLimitT env orgID code bucket).1 =
          some ⟨500, "Internal Server Error"⟩) := by
  constructor
  · intro n hn
    simp [validateCountLimitT, countVerdict, hc, hn]
  · rintro (h | h) <;> simp [validateCountLimitT, countVerdict, hc, h]

/-- C5 witness: for the 7-day tier (ceiling 10000) a count of 10000 is
rejected 402, a count of 9999 admits, and a failed query is rejected
500. -/
theorem c5_quota_guard_witness :
    (validateCountLimitT (envCountAt 10000) "org1" "0007" "retention_7d").1 =
      some ⟨402, "Quota exceeded"⟩ ∧
    (validateCountLimitT (envCountAt 9999) "org1" "0007" "retention_7d").1 = none ∧
    (validateCountLimitT envQErr "org1" "0007" "retention_7d").1 =
      some ⟨500, "Internal Server Error"⟩ := by
  refine ⟨?_, ?_, ?_⟩
  · have h := (c5_quota_guard (envCountAt 10000) "org1" "0007" "retention_7d" 10000
      (by decide)).1 10000 rfl
    rwa [if_pos (by norm_num)] at h
  · have h := (c5_quota_guard (envCountAt 9999) "org1" "0007" "retention_7d" 10000
      (by decide)).1 9999 rfl
    rwa [if_neg (by norm_num)] at h
  · exact (c5_quota_guard envQErr "org1" "0007" "retention_7d" 10000 (by decide)).2
      (Or.inl rfl)

/-- C6: the count query interpolates the organization identifier verbatim,
so an identifier containing a single quote terminates the SQL string
literal and alters the query's structure — the value is not escaped or
parameterized (a quote-free identifier yields exactly the two delimiter
quotes; an identifier with a quote yields three). -/
theorem c6_org_id_injection :
    sqlQuoteCount (countSql "org1") = 2 ∧
    sqlQuoteCount (countSql ("a" ++ squo ++ "b")) = 3 ∧
    ¬ (∀ orgID : String, sqlQuoteCount (countSql orgID) = 2) := by
  refine ⟨by decide, by decide, fun h => ?_⟩
  have h2 := h ("a" ++ squo ++ "b")
  revert h2
  decide

/-- C7: for a (credential, deviceID) pair not yet in the registry, the rate
gate creates and stores a single bucket with burst capacity 2 and refill
rate 2 tokens/second; two immediately consecutive requests are admitted,
the third in the same instant is rejected, and after the bucket is empty a
call is admitted again exactly once half a second (one token at 2/s) has
elapsed. -/
theorem c7_rate_bucket (m : List (String × Limiter)) (apiKey sensorID : String) (t0 : Rat)
    (habs : m.lookup (rateKey apiKey sensorID) = none) :
    (getRateLimiter m apiKey sensorID t0).1 = newLimiter t0 ∧
    (getRateLimiter m apiKey sensorID t0).2 =
      (rateKey apiKey sensorID, newLimiter t0) :: m ∧
    allowThrice (getRateLimiter m apiKey sensorID t0).1 t0 = (true, true, false, ⟨0, t0⟩) ∧
    (∀ d : Rat, 1/2 ≤ d → (limiterAllowAt ⟨0, t0⟩ (t0 + d)).1 = true) ∧
    (∀ d : Rat, 0 ≤ d → d < 1/2 → (limiterAllowAt ⟨0, t0⟩ (t0 + d)).1 = false) := by
  refine ⟨?_, ?_, ?_, ?_, ?_⟩
  · simp [getRateLimiter, habs]
  · simp [getRateLimiter, habs]
  · simp [getRateLimiter, habs, allowThrice, limiterAllowAt, newLimiter]
    norm_num
  · intro d hd
    simp only [limiterAllowAt]
    rw [show (0 : Rat) + (t0 + d - t0) * 2 = 2 * d by ring]
    rw [if_pos (le_min_iff.mpr ⟨by norm_num, by linarith⟩)]
  · intro d hd0 hd
    simp only [limiterAllowAt]
    rw [show (0 : Rat) + (t0 + d - t0) * 2 = 2 * d by ring]
    rw [if_neg (fun h => by have := (le_min_iff.mp h).2; linarith)]

/-- C7 witness: the burst/refill behaviour at a concrete key, empty
registry and time 0, with replenishment after one second. -/
theorem c7_rate_bucket_witness :
    allowThrice (getRateLimiter [] "k" "s" 0).1 0 = (true, true, false, ⟨0, 0⟩) ∧
    (limiterAllowAt ⟨0, 0⟩ (0 + 1)).1 = true :=
  ⟨(c7_rate_bucket [] "k" "s" 0 rfl).2.2.1,
   (c7_rate_bucket [] "k" "s" 0 rfl).2.2.2.1 1 (by norm_num)⟩

/-- C8: every run's external calls form a prefix of the canonical gate
sequence (key lookup, sensor lookup, rate acquire, count query, write) —
no call out of order, none after a failed gate — and a request passing
every earlier gate whose credential carries a retention code outside the
tier table is answered 400 with no count query and no write issued. -/
theorem c8_gate_order :
    (∀ (env : Env) (req : Request),
        (handleUpload env req).2.map eventKind ∈ gateTracePrefixes) ∧
    (∀ (env : Env) (req : Request) (reading : SensorReading) (raw : Int) (code : String),
        req.method = "POST" →
        req.authHeader.data.take 7 = bearerTag.data →
        ¬ req.orgID = "" → ¬ req.sensorID = "" →
        (validateAPIKeyT env req.orgID (credOf req)).1 = true →
        (validateSensorIDT env req.orgID req.sensorID).1 = true →
        env.rateAllow = true →
        req.body = Except.ok reading →
        (effectiveReading reading req.sensorID).timestamp = some raw →
        validateReading (effectiveReading reading req.sensorID) = none →
        retentionSlice (credOf req) = some code →
        retentionBuckets code = "" →
        (handleUpload env req).1 = Outcome.resp ⟨400, "Unknown retention level"⟩ ∧
        (handleUpload env req).2.map eventKind = [EKind.key, EKind.sensor, EKind.rate] ∧
        EKind.query ∉ (handleUpload env req).2.map eventKind ∧
        EKind.write ∉ (handleUpload env req).2.map eventKind) :=
  ⟨gateTraceMem, fun env req reading raw code hm ha ho hs hkey hsen hrate hb hts hval
      hslice hbucket =>
    unknownRetention400 env req reading raw code hm ha ho hs hkey hsen hrate hb hts hval
      hslice hbucket⟩

/-- C8 witness: the request with credential `999902` (unknown retention
code `9999`, allowed level `02`) in an all-good environment is answered
400, and its trace is exactly key lookup, sensor lookup, rate acquire. -/
theorem c8_gate_order_witness :
    (handleUpload envAll req9999).1 = Outcome.resp ⟨400, "Unknown retention level"⟩ ∧
    (handleUpload envAll req9999).2.map eventKind = [EKind.key, EKind.sensor, EKind.rate] ∧
    EKind.query ∉ (handleUpload envAll req9999).2.map eventKind ∧
    EKind.write ∉ (handleUpload envAll req9999).2.map eventKind :=
  c8_gate_order.2 envAll req9999 reading202 1700000000 "9999" rfl (by decide) (by decide)
    (by decide) (by decide) (by decide) rfl rfl (by decide) (by decide) (by decide) (by decide)

/-- C9 counterexample: under the `src/main.go` router, which registers no
`/health` pattern, a GET to `/health` falls through to the root pattern
and is answered with the root JSON, not `\x7b"status":"healthy"\x7d`, so
not every GET `/health` across the repository's entry points returns the
healthy body. -/
theorem c9_health_counterexample :
    (routeOf mainGoPats "/health").map tagRespGet = some rootHandlerResp ∧
    rootHandlerResp ≠ healthResp ∧
    ¬ (∀ pats ∈ [mainGoPats, part000Pats],
        (routeOf pats "/health").map tagRespGet = some healthResp) := by
  refine ⟨by decide, by decide, fun h => ?_⟩
  have h2 := h mainGoPats (by decide)
  revert h2
  decide

/-- C9 (amended): a GET to `/health` returns 200 under both entry points;
the body is exactly `\x7b"status":"healthy"\x7d` when served by the
`part_000` entry point's dedicated handler, while `src/main.go` routes
`/health` to the root handler, whose 200 response carries the root JSON
body instead. -/
theorem c9_health_routes :
    (routeOf part000Pats "/health").map tagRespGet = some healthResp ∧
    (routeOf mainGoPats "/health").map tagRespGet = some rootHandlerResp ∧
    healthResp.status = 200 ∧
    healthResp.body = "\x7b\"status\":\"healthy\"\x7d" ∧
    rootHandlerResp.status = 200 := by
  decide

/-- C10: whatever the environment, every point the pipeline writes for a
decoded body carries as its sensor tag the body's `sensorId` when that
field is present and non-empty and the route's `sensor_id` otherwise,
while every sensor-existence lookup the pipeline issues is for the route's
`sensor_id` only — a body-supplied sensor identifier is never the one
checked for existence. -/
theorem c10_sensor_tag (env : Env) (req : Request) (reading : SensorReading)
    (hb : req.body = Except.ok reading) :
    (∀ p ∈ writePointsOf (handleUpload env req).2,
        p.sensorTag = bodySensorSpec reading req.sensorID) ∧
    (∀ s ∈ sensorLookupArgsOf (handleUpload env req).2, s = req.sensorID) := by
  have hall := sensorTagAll env req reading hb
  constructor
  · intro p hp
    have := List.all_eq_true.mp hall.1 p hp
    exact of_decide_eq_true this
  · intro s hs
    have := List.all_eq_true.mp hall.2 s hs
    exact of_decide_eq_true this

/-- C10 witness: for the request whose body names sensor `other` while the
route names `dev1`, the written point's sensor tag is `other` (the body's
value), and the one sensor lookup issued is for `dev1` (the route's). -/
theorem c10_sensor_tag_witness :
    (mkPoint "org1" (effectiveReading readingOther "dev1")
        (normTsNanos 1700000000)).sensorTag = bodySensorSpec readingOther "dev1" ∧
    "dev1" = reqOther.sensorID :=
  ⟨(c10_sensor_tag envAll reqOther readingOther rfl).1 _ (by decide),
   (c10_sensor_tag envAll reqOther readingOther rfl).2 "dev1" (by decide)⟩
